import Mathlib

/-!
Verification of the SafeDocs PDF-redaction system's frontend
(src/frontend/src/app/page.tsx, src/frontend/src/components/RedactionConfig.tsx,
the RedactionPreview component) and of the detection-and-redaction engine
contract, as a shallow embedding in Lean 4.

JavaScript strings are modelled as Lean `String`, `undefined`/`null`-able
values as `Option`, and the React component's `useState` cells as one record
`AppState`; an event handler becomes a function from the old state (plus the
data the handler receives from outside, such as the HTTP response) to the new
state.  An axios response is a status code, a parsed-or-unparsable JSON body
and an optional Content-Disposition header.
-/

/-- The `step` state of the Home component:
`useState<'upload' | 'configure' | 'password' | 'processing' | 'result'>`. -/
inductive Step where
  | upload
  | configure
  | password
  | processing
  | result
deriving DecidableEq, Repr

/-- All `useState` cells of the Home component (page.tsx lines 14-22),
with their JS types: `File | null` is modelled by the file's name,
`string | null` by `Option String`, `number | null` by `Option Nat`. -/
structure AppState where
  step : Step
  selectedFile : Option String
  redactionLevel : String
  redactedPdfUrl : Option String
  downloadFilename : String
  error : Option String
  processingTime : Option Nat
  pdfPassword : String
  passwordError : Option String
deriving DecidableEq, Repr

/-- The initial state of the component: each `useState` initial value
(page.tsx lines 14-22). -/
def initState : AppState :=
  { step := Step.upload
    selectedFile := none
    redactionLevel := "medium"
    redactedPdfUrl := none
    downloadFilename := "redacted_document.pdf"
    error := none
    processingTime := none
    pdfPassword := ""
    passwordError := none }

/-- The JSON body of an error response, after `JSON.parse` on the blob's
text: either unparsable (`JSON.parse` throws) or an object whose `error`,
`message` and `detail` fields are each possibly absent. -/
inductive RespBody where
  | invalid
  | obj (error : Option String) (message : Option String) (detail : Option String)
deriving DecidableEq, Repr

/-- Outcome of the `axios.post` call in doRedact.  `validateStatus: status < 500`
makes axios resolve for every status below 500 and reject (throw) otherwise,
and a network failure also rejects, so a rejection is `netError`. -/
inductive AxiosResult where
  | netError
  | resp (status : Nat) (body : RespBody) (contentDisposition : Option String)
deriving DecidableEq, Repr

/-- A multipart form is a list of (field name, value) entries. -/
abbrev FormEntries := List (String × String)

/-- JS truthiness of the optional `password` argument: `if (password)` is
taken for a present, non-empty string. -/
def pwTruthy : Option String → Bool
  | some p => p ≠ ""
  | none => false

/-- The FormData built in doRedact (page.tsx lines 39-44): always the file and
the redaction level, plus the password field exactly when `if (password)`
holds. -/
def buildRedactForm (fileName redactionLevel : String) (password : Option String) :
    FormEntries :=
  [("file", fileName), ("redaction_level", redactionLevel)] ++
    (if pwTruthy password then [("password", password.getD "")] else [])

/-- JS `String.prototype.trim` on the password (page.tsx line 106), modelled
with `Char.isWhitespace`: drop whitespace from both ends. -/
def jsTrim (s : String) : String :=
  String.mk (((s.toList.dropWhile Char.isWhitespace).reverse.dropWhile
    Char.isWhitespace).reverse)

/-- Index of the first occurrence of `pat` in a character list, scanning left
to right (the JS regex engine's scan order). -/
def findSubstrIdx (pat : List Char) : List Char → Option Nat
  | [] => if pat.isEmpty then some 0 else none
  | l@(_ :: rest) =>
    if pat.isPrefixOf l then some 0
    else (findSubstrIdx pat rest).map (· + 1)

/-- The capture group of the JS regex `/filename="?(.+?)"?$/` applied to a
Content-Disposition header value (page.tsx line 88): find the leftmost
`filename=`, optionally consume one opening quote (greedy `"?`), then the
lazy group `(.+?)` takes everything up to the end except an optional single
closing quote, and must be non-empty.  Returns `none` when the regex does not
match (no `filename=`, or nothing after it). -/
def jsFilenameCapture (s : String) : Option String :=
  match findSubstrIdx "filename=".toList s.toList with
  | none => none
  | some i =>
    let r := s.toList.drop (i + 9)
    if r.isEmpty then none
    else
      let r1 := if r.head? = some '"' then r.drop 1 else r
      if r1.isEmpty then
        -- `r` was a lone quote: `"?` backtracks to empty, the group is `r`
        some (String.mk r)
      else if r1.getLast? = some '"' ∧ 2 ≤ r1.length then
        some (String.mk r1.dropLast)
      else
        some (String.mk r1)

/-- The extensions recognized by the regex
`/\.(pdf|png|jpg|jpeg|bmp|tiff?)$/i` (page.tsx line 91). -/
def knownExts : List String := ["pdf", "png", "jpg", "jpeg", "bmp", "tif", "tiff"]

/-- `selectedFile.name.replace(/\.(pdf|png|jpg|jpeg|bmp|tiff?)$/i, '')`:
strip one trailing recognized extension, case-insensitively; a name with no
recognized extension is unchanged. -/
def stripRecognizedExt (name : String) : String :=
  let lowered := name.toList.map Char.toLower
  match knownExts.find? (fun e => ("." ++ e).toList.isSuffixOf lowered) with
  | some e => String.mk (name.toList.take (name.toList.length - (e.length + 1)))
  | none => name

/-- The generic message set by the outer `catch` (page.tsx line 98): an axios
rejection (network failure or status ≥ 500) or the throwing `JSON.parse` of a
423 body land here. -/
def catchMsg : String :=
  "Error processing file. Make sure the backend server is running on port 8000."

/-- The fallback message when an error body has no usable `detail`
(page.tsx lines 71, 73). -/
def genericErrMsg : String := "Error processing file."

def unparsableErrMsg : String :=
  "Error processing file. Make sure the backend is running."

/-- The `response.status >= 400` branch (page.tsx lines 67-77): re-parse the
body text; on parse failure a fixed message, otherwise `detail` with
`||`-fallback for an absent or empty `detail`; step returns to configure. -/
def errorBranch (st : AppState) (body : RespBody) : AppState :=
  match body with
  | RespBody.invalid =>
      { st with error := some unparsableErrMsg, step := Step.configure }
  | RespBody.obj _ _ detail =>
      let msg := match detail with
        | some d => if d = "" then genericErrMsg else d
        | none => genericErrMsg
      { st with error := some msg, step := Step.configure }

/-- The success branch's downloadFilename (page.tsx lines 86-93): the regex
capture of the Content-Disposition header when the header is present and the
regex matches — an unmatched header leaves the previous value — otherwise the
original name with a recognized extension stripped, plus `_redacted.pdf`. -/
def successFilename (prev fileName : String) (disposition : Option String) : String :=
  match disposition with
  | some d =>
    match jsFilenameCapture d with
    | some n => n
    | none => prev
  | none => stripRecognizedExt fileName ++ "_redacted.pdf"

/-- `doRedact` (page.tsx lines 30-101) as a state transformer.  Besides the
previous state it takes the optional `password` argument, the result of the
axios call, the blob URL `URL.createObjectURL` would mint, and the elapsed
seconds; it returns the new state together with the form entries sent
(`none` when the guard `if (!selectedFile) return` fired and no request was
made). -/
def doRedact (st : AppState) (password : Option String) (r : AxiosResult)
    (freshUrl : String) (elapsed : Nat) : AppState × Option FormEntries :=
  match st.selectedFile with
  | none => (st, none)
  | some file =>
    let st1 : AppState :=
      { st with step := Step.processing, error := none, passwordError := none }
    let fd := buildRedactForm file st.redactionLevel password
    match r with
    | AxiosResult.netError =>
      ({ st1 with error := some catchMsg, step := Step.configure }, some fd)
    | AxiosResult.resp status body disposition =>
      if 500 ≤ status then
        -- validateStatus rejects: outer catch
        ({ st1 with error := some catchMsg, step := Step.configure }, some fd)
      else if status = 423 then
        match body with
        | RespBody.invalid =>
          -- JSON.parse throws inside the 423 branch: outer catch
          ({ st1 with error := some catchMsg, step := Step.configure }, some fd)
        | RespBody.obj err msg _ =>
          if err = some "password_required" then
            ({ st1 with
                passwordError := if pwTruthy password then msg else none
                pdfPassword := ""
                step := Step.password }, some fd)
          else
            -- falls through to the `status >= 400` check, which re-parses
            (errorBranch st1 body, some fd)
      else if 400 ≤ status then
        (errorBranch st1 body, some fd)
      else
        ({ st1 with
            redactedPdfUrl := some freshUrl
            processingTime := some elapsed
            downloadFilename := successFilename st.downloadFilename file disposition
            step := Step.result }, some fd)

/-- `handleProceed` (page.tsx line 103): doRedact with no password. -/
def handleProceed (st : AppState) (r : AxiosResult) (freshUrl : String)
    (elapsed : Nat) : AppState × Option FormEntries :=
  doRedact st none r freshUrl elapsed

/-- `handlePasswordSubmit` (page.tsx lines 105-111): an empty-after-trim
password sets a local error and returns before doRedact. -/
def handlePasswordSubmit (st : AppState) (r : AxiosResult) (freshUrl : String)
    (elapsed : Nat) : AppState × Option FormEntries :=
  if jsTrim st.pdfPassword = "" then
    ({ st with passwordError := some "Please enter the password." }, none)
  else
    doRedact st (some st.pdfPassword) r freshUrl elapsed

/-- `handleReset` (page.tsx lines 123-135): revoke the blob URL when one
exists, then reset each of the eight listed state cells; the second component
is the list of URLs passed to `URL.revokeObjectURL`.  `downloadFilename` is
not among the reset cells and keeps its value. -/
def handleReset (st : AppState) : AppState × List String :=
  ({ st with
      step := Step.upload
      selectedFile := none
      redactedPdfUrl := none
      redactionLevel := "medium"
      error := none
      processingTime := none
      pdfPassword := ""
      passwordError := none },
   st.redactedPdfUrl.toList)

/-!
Model of src/frontend/src/components/RedactionConfig.tsx: the `levels`
constant (lines 13-53).  Styling-only fields (icon, gradient, border, glow,
colors) are omitted; the behavioural fields are the id, the title, the
description and the PII-type pill labels.
-/

/-- The closed PiiType enumeration of the data model (spec section 3). -/
inductive PiiType where
  | Aadhaar
  | PAN
  | Passport
  | DrivingLicense
  | VoterID
  | Phone
  | Email
  | DOB
  | BankAccount
  | IFSC
deriving DecidableEq, Repr

/-- One entry of the `levels` array, its behavioural fields. -/
structure LevelCfg where
  id : String
  title : String
  description : String
  items : List String
deriving DecidableEq, Repr

/-- The `levels` array of RedactionConfig.tsx. -/
def levels : List LevelCfg :=
  [ { id := "low", title := "Basic", description := "Aadhaar & PAN only",
      items := ["Aadhaar Number", "PAN Card"] },
    { id := "medium", title := "Standard", description := "IDs + Contact Info",
      items := ["Aadhaar", "PAN", "Passport", "DL", "Phone"] },
    { id := "high", title := "Maximum", description := "All PII detected & masked",
      items := ["Aadhaar", "PAN", "Passport", "DL", "Voter ID", "Phone", "Email",
                "DOB", "Bank A/C", "IFSC"] } ]

/-- The PiiType a pill label denotes ("DL" is DrivingLicense, "Bank A/C" is
BankAccount, and "Aadhaar Number"/"PAN Card" are the long low-level labels). -/
def labelToType (s : String) : Option PiiType :=
  if s = "Aadhaar Number" ∨ s = "Aadhaar" then some PiiType.Aadhaar
  else if s = "PAN Card" ∨ s = "PAN" then some PiiType.PAN
  else if s = "Passport" then some PiiType.Passport
  else if s = "DL" then some PiiType.DrivingLicense
  else if s = "Voter ID" then some PiiType.VoterID
  else if s = "Phone" then some PiiType.Phone
  else if s = "Email" then some PiiType.Email
  else if s = "DOB" then some PiiType.DOB
  else if s = "Bank A/C" then some PiiType.BankAccount
  else if s = "IFSC" then some PiiType.IFSC
  else none

/-- The set of PII types a sensitivity level activates: the types denoted by
the pills of the `levels` entry with that id. -/
def activeTypes (levelId : String) : List PiiType :=
  match levels.find? (fun l => l.id = levelId) with
  | some l => l.items.filterMap labelToType
  | none => []

/-!
Model of the RedactionPreview component (src/unnamed/part_000):
its handling of the `piiEntities` prop.
-/

/-- A JS value that may be `undefined`, `null`, or present. -/
inductive JsArg (α : Type) where
  | undef
  | null
  | val (a : α)
deriving DecidableEq, Repr

/-- A detected entity as the PiiEntity interface declares it (part_000 lines
6-11); `end` is a Lean keyword so the field is `endIdx`. -/
structure PiiEntity where
  text : String
  label : String
  start : Int
  endIdx : Int
deriving DecidableEq, Repr

/-- What the component renders for the entity list: the count shown in the
header, whether the "No PII detected." paragraph appears, and the rows (one
per entity). -/
structure PreviewView where
  detectedCount : Nat
  noPiiMessage : Bool
  rows : List PiiEntity
deriving DecidableEq, Repr

/-- `piiEntities` after the component's two defaults: the destructuring
default `piiEntities = []` covers `undefined`, and `piiEntities ?? []`
(part_000 line 26) covers `null`. -/
def resolveEntities : JsArg (List PiiEntity) → List PiiEntity
  | JsArg.undef => []
  | JsArg.null => []
  | JsArg.val l => l

/-- The RedactionPreview render, restricted to the Detected-PII card
(part_000 lines 62-81): header count `entities.length`, and either the
"No PII detected." paragraph (when `entities.length === 0`) or one row per
entity. -/
def renderPreview (piiEntities : JsArg (List PiiEntity)) : PreviewView :=
  let entities := resolveEntities piiEntities
  { detectedCount := entities.length
    noPiiMessage := entities.length = 0
    rows := if entities.length = 0 then [] else entities }

/-!
Detection-and-redaction engine.  The engine itself is backend code that is
not part of this repository's sources; only its request contract, component
design and post-condition are specified.  Each definition below is modelled
from the spec.
-/

/-- SensitivityLevel enum (spec section 3). -/
inductive SensitivityLevel where
  | low
  | medium
  | high
deriving DecidableEq, Repr

/-- Modelled from the spec: which PII types a sensitivity level gates in
(section 4.4) — low: Aadhaar and PAN; medium: low plus Passport,
DrivingLicense, Phone; high: all ten. -/
def levelTypes : SensitivityLevel → List PiiType
  | SensitivityLevel.low => [PiiType.Aadhaar, PiiType.PAN]
  | SensitivityLevel.medium =>
      [PiiType.Aadhaar, PiiType.PAN, PiiType.Passport, PiiType.DrivingLicense,
       PiiType.Phone]
  | SensitivityLevel.high =>
      [PiiType.Aadhaar, PiiType.PAN, PiiType.Passport, PiiType.DrivingLicense,
       PiiType.VoterID, PiiType.Phone, PiiType.Email, PiiType.DOB,
       PiiType.BankAccount, PiiType.IFSC]

/-- A character-class shape: one predicate per character position. -/
def matchShape : List (Char → Bool) → List Char → Bool
  | [], _ => true
  | _ :: _, [] => false
  | p :: ps, c :: cs => p c && matchShape ps cs

def isUppercaseAscii (c : Char) : Bool := 'A' ≤ c ∧ c ≤ 'Z'

def isDigitChar (c : Char) : Bool := c.isDigit

def isUpperOrDigit (c : Char) : Bool := isUppercaseAscii c || isDigitChar c

def isAlphaChar (c : Char) : Bool := c.isAlpha

def isAlnumChar (c : Char) : Bool := c.isAlphanum

/-- Length of the longest prefix satisfying `p`. -/
def countWhile (p : Char → Bool) : List Char → Nat
  | [] => 0
  | c :: cs => if p c then countWhile p cs + 1 else 0

/-- Modelled from the spec: an email-address recognizer at a position —
a run of alphanumerics, `@`, a run of alphanumerics, `.`, a run of letters
(glossary: each PII type has a distinct canonical shape). -/
def recEmail (cs : List Char) : Option Nat :=
  let a := countWhile isAlnumChar cs
  if a = 0 then none
  else
    match cs.drop a with
    | '@' :: rest =>
      let b := countWhile isAlnumChar rest
      if b = 0 then none
      else
        match rest.drop b with
        | '.' :: tail =>
          let c := countWhile isAlphaChar tail
          if c = 0 then none else some (a + 1 + b + 1 + c)
        | _ => none
    | _ => none

/-- Modelled from the spec: the canonical pattern of each PII type as a
recognizer returning the match length at a position (spec sections 4.4 and 8:
Aadhaar a 12-digit sequence, PAN five letters, four digits, one letter —
"ABCDE1234F" — phone "+91" plus ten digits, DOB a slash-separated date, IFSC
four letters, a zero, six alphanumerics; the remaining identity numbers as
fixed letter-digit shapes). -/
def typeRecognizer : PiiType → List Char → Option Nat
  | PiiType.Aadhaar, cs =>
      if matchShape (List.replicate 12 isDigitChar) cs then some 12 else none
  | PiiType.PAN, cs =>
      if matchShape (List.replicate 5 isUppercaseAscii ++
          List.replicate 4 isDigitChar ++ [isUppercaseAscii]) cs
      then some 10 else none
  | PiiType.Passport, cs =>
      if matchShape ([isUppercaseAscii] ++ List.replicate 7 isDigitChar) cs
      then some 8 else none
  | PiiType.DrivingLicense, cs =>
      if matchShape (List.replicate 2 isUppercaseAscii ++
          List.replicate 13 isDigitChar) cs
      then some 15 else none
  | PiiType.VoterID, cs =>
      if matchShape (List.replicate 3 isUppercaseAscii ++
          List.replicate 7 isDigitChar) cs
      then some 10 else none
  | PiiType.Phone, cs =>
      if matchShape ([fun c => c == '+', fun c => c == '9', fun c => c == '1'] ++
          List.replicate 10 isDigitChar) cs
      then some 13 else none
  | PiiType.Email, cs => recEmail cs
  | PiiType.DOB, cs =>
      if matchShape (List.replicate 2 isDigitChar ++ [fun c => c == '/'] ++
          List.replicate 2 isDigitChar ++ [fun c => c == '/'] ++
          List.replicate 4 isDigitChar) cs
      then some 10 else none
  | PiiType.BankAccount, cs =>
      if matchShape (List.replicate 11 isDigitChar) cs then some 11 else none
  | PiiType.IFSC, cs =>
      if matchShape (List.replicate 4 isUppercaseAscii ++ [fun c => c == '0'] ++
          List.replicate 6 isUpperOrDigit) cs
      then some 11 else none

/-- A PiiMatch: type, start offset, length and the matched text
(spec section 3). -/
structure PiiMatch where
  type : PiiType
  start : Nat
  len : Nat
  text : List Char
deriving DecidableEq, Repr

/-- Modelled from the spec: scan every position of the logical text for every
active type's pattern (spec section 4.4, "Detection scans each page's logical
text for all active-type patterns"). -/
def scanText (types : List PiiType) : List Char → Nat → List PiiMatch
  | [], _ => []
  | l@(_ :: rest), i =>
    (types.filterMap (fun t =>
      (typeRecognizer t l).map (fun n =>
        { type := t, start := i, len := n, text := l.take n }))) ++
    scanText types rest (i + 1)

/-- Modelled from the spec: the detector for a sensitivity level over a
logical text. -/
def detect (lvl : SensitivityLevel) (cs : List Char) : List PiiMatch :=
  scanText (levelTypes lvl) cs 0

/-- Modelled from the spec: the masking policy per type (spec section 4.5) —
partial mask showing only the last 4 characters for Aadhaar, PAN, Phone,
BankAccount; full opaque mask for the rest. -/
def partialMask : PiiType → Bool
  | PiiType.Aadhaar => true
  | PiiType.PAN => true
  | PiiType.Phone => true
  | PiiType.BankAccount => true
  | _ => false

/-- The character offsets a match's redaction region covers: all of the match
for a full mask, all but the last 4 for a partial mask. -/
def coveredOffsets (m : PiiMatch) : List Nat :=
  let keep := if partialMask m.type then 4 else 0
  (List.range (m.len - keep)).map (· + m.start)

/-- Modelled from the spec: the applier destructively overwrites every
covered offset with the opaque block glyph (spec section 4.6). -/
def applyMask (cs : List Char) (ms : List PiiMatch) : List Char :=
  let covered := ms.flatMap coveredOffsets
  (cs.enum).map (fun ic => if covered.contains ic.1 then '█' else ic.2)

/-- Whether `pat` occurs as a contiguous subsequence of `l`. -/
def containsSeq (pat l : List Char) : Bool :=
  (findSubstrIdx pat l).isSome

/-- The error taxonomy of spec section 7 (the part the engine model uses). -/
inductive EngineError where
  | RedactionIntegrityFailure
deriving DecidableEq, Repr

/-- Modelled from the spec: the engine pipeline — detect, plan and apply
masks, then the section 4.6 post-condition check: re-run detection on its own
output and check that no previously matched PII text is still present; if any
is detectable the request fails closed with RedactionIntegrityFailure rather
than returning a partially redacted document. -/
def engine (lvl : SensitivityLevel) (input : String) : Except EngineError String :=
  let cs := input.toList
  let ms := detect lvl cs
  let out := applyMask cs ms
  if (detect lvl out).isEmpty && ms.all (fun m => !(containsSeq m.text out)) then
    Except.ok (String.mk out)
  else
    Except.error EngineError.RedactionIntegrityFailure

/-!  Theorems for the claims.  -/

/-- C3: the sensitivity levels activate exactly the specified PII-type sets —
low activates Aadhaar and PAN; medium activates low's set plus Passport,
DrivingLicense and Phone; high activates all ten types; and no type outside a
level's set is active at that level (the membership equivalences are exact). -/
theorem claim_C3 :
    ∀ t : PiiType,
      (t ∈ activeTypes "low" ↔ (t = PiiType.Aadhaar ∨ t = PiiType.PAN)) ∧
      (t ∈ activeTypes "medium" ↔
        (t ∈ activeTypes "low" ∨ t = PiiType.Passport ∨
         t = PiiType.DrivingLicense ∨ t = PiiType.Phone)) ∧
      t ∈ activeTypes "high" := by
  intro t
  cases t <;> exact ⟨by decide, by decide, by decide⟩

/-- C6: the form entries built for a redaction request are exactly the file
and the declared sensitivity level, plus a password field precisely when a
non-empty password argument was supplied. -/
theorem claim_C6 (f lvl : String) (password : Option String) :
    ("file", f) ∈ buildRedactForm f lvl password ∧
    ("redaction_level", lvl) ∈ buildRedactForm f lvl password ∧
    (buildRedactForm f lvl password).map Prod.fst =
      ["file", "redaction_level"] ++
        (if pwTruthy password then ["password"] else []) ∧
    (∀ p : String,
      ("password", p) ∈ buildRedactForm f lvl password ↔
        (password = some p ∧ p ≠ "")) := by
  rcases password with _ | p
  · simp [buildRedactForm, pwTruthy]
  · by_cases hp : p = ""
    · simp [buildRedactForm, pwTruthy, hp]
    · simp only [buildRedactForm, pwTruthy, hp]
      aesop

/-- C7 (amended): handleReset revokes exactly the previously stored blob URL
and restores every state cell except `downloadFilename` to its initial value;
`downloadFilename` keeps its previous value. -/
theorem claim_C7 (st : AppState) :
    (handleReset st).1 = { initState with downloadFilename := st.downloadFilename } ∧
    (handleReset st).2 = st.redactedPdfUrl.toList :=
  ⟨rfl, rfl⟩

/-- C7 counterexample: after a successful request on `leak.pdf` (no
Content-Disposition header), `downloadFilename` is `leak_redacted.pdf`;
handleReset leaves it there, so the post-reset state differs from the initial
state and a piece of per-request state survives into the next request. -/
theorem claim_C7_counterexample :
    (handleReset (doRedact
        { initState with selectedFile := some "leak.pdf", step := Step.configure }
        none (AxiosResult.resp 200 (RespBody.obj none none none) none)
        "blob:u1" 2).1).1.downloadFilename = "leak_redacted.pdf" ∧
    initState.downloadFilename = "redacted_document.pdf" ∧
    (handleReset (doRedact
        { initState with selectedFile := some "leak.pdf", step := Step.configure }
        none (AxiosResult.resp 200 (RespBody.obj none none none) none)
        "blob:u1" 2).1).1 ≠ initState := by
  refine ⟨rfl, rfl, ?_⟩
  decide

/-- Dropping the whole password: a string all of whose characters are
whitespace trims to the empty string. -/
theorem jsTrim_eq_empty (s : String)
    (h : ∀ c ∈ s.toList, c.isWhitespace = true) : jsTrim s = "" := by
  unfold jsTrim
  have h1 : s.toList.dropWhile Char.isWhitespace = [] :=
    List.dropWhile_eq_nil_iff.mpr h
  rw [h1]
  rfl

/-- C8: for a stored password that is empty or all whitespace,
handlePasswordSubmit sets the local password error to "Please enter the
password." and returns before doRedact: no request is sent and every other
state cell, the step included, is unchanged. -/
theorem claim_C8 (st : AppState) (r : AxiosResult) (url : String) (t : Nat)
    (h : ∀ c ∈ st.pdfPassword.toList, c.isWhitespace = true) :
    handlePasswordSubmit st r url t =
      ({ st with passwordError := some "Please enter the password." }, none) := by
  unfold handlePasswordSubmit
  rw [if_pos (jsTrim_eq_empty st.pdfPassword h)]

/-- C8 witness at the whitespace-only password "  ". -/
theorem claim_C8_witness :
    handlePasswordSubmit
        { initState with pdfPassword := "  ", step := Step.password }
        AxiosResult.netError "u" 0 =
      ({ initState with
          pdfPassword := "  "
          step := Step.password
          passwordError := some "Please enter the password." }, none) :=
  claim_C8 { initState with pdfPassword := "  ", step := Step.password }
    AxiosResult.netError "u" 0 (by decide)

/-- C9: doRedact with no selected file returns immediately: the state is
unchanged and no request is built or sent. -/
theorem claim_C9 (st : AppState) (password : Option String) (r : AxiosResult)
    (url : String) (t : Nat) (h : st.selectedFile = none) :
    doRedact st password r url t = (st, none) := by
  unfold doRedact
  rw [h]

/-- C9 witness at the initial state, which has no selected file. -/
theorem claim_C9_witness :
    doRedact initState none AxiosResult.netError "u" 0 = (initState, none) :=
  claim_C9 initState none AxiosResult.netError "u" 0 rfl

/-- C10: RedactionPreview is total over missing entity lists — `undefined`
and `null` are both treated as the empty list, showing count 0 and the
"No PII detected." message with no rows; every non-empty list shows its
length as the count and one row per entity, with no empty-message. -/
theorem claim_C10 :
    (renderPreview JsArg.undef =
      { detectedCount := 0, noPiiMessage := true, rows := [] }) ∧
    (renderPreview JsArg.null =
      { detectedCount := 0, noPiiMessage := true, rows := [] }) ∧
    ∀ l : List PiiEntity, l ≠ [] →
      (renderPreview (JsArg.val l)).detectedCount = l.length ∧
      (renderPreview (JsArg.val l)).noPiiMessage = false ∧
      (renderPreview (JsArg.val l)).rows = l := by
  refine ⟨rfl, rfl, ?_⟩
  intro l hl
  have hlen : l.length ≠ 0 := by
    simpa [List.length_eq_zero] using hl
  simp [renderPreview, resolveEntities, hlen]

/-- C10 witness at a one-entity list. -/
theorem claim_C10_witness :
    (renderPreview (JsArg.val
        [{ text := "ABCDE1234F", label := "PAN", start := 5, endIdx := 15 }])).detectedCount = 1 ∧
    (renderPreview (JsArg.val
        [{ text := "ABCDE1234F", label := "PAN", start := 5, endIdx := 15 }])).noPiiMessage = false ∧
    (renderPreview (JsArg.val
        [{ text := "ABCDE1234F", label := "PAN", start := 5, endIdx := 15 }])).rows =
      [{ text := "ABCDE1234F", label := "PAN", start := 5, endIdx := 15 }] :=
  claim_C10.2.2
    [{ text := "ABCDE1234F", label := "PAN", start := 5, endIdx := 15 }]
    (by decide)

/-- C2: on an HTTP 423 response whose body carries the code
`password_required`, the client moves to the password step with no generic
error, and distinguishes the two cases — sent without a password, the prompt
shows no prior-error message (passwordError is null); sent with a non-empty
(wrong) password, the prompt displays the server's message. -/
theorem claim_C2 (st : AppState) (f : String) (msg detail disposition : Option String)
    (url : String) (t : Nat) (p : String) (hf : st.selectedFile = some f)
    (hp : p ≠ "") :
    (doRedact st none (AxiosResult.resp 423
        (RespBody.obj (some "password_required") msg detail) disposition)
        url t).1.step = Step.password ∧
    (doRedact st none (AxiosResult.resp 423
        (RespBody.obj (some "password_required") msg detail) disposition)
        url t).1.error = none ∧
    (doRedact st none (AxiosResult.resp 423
        (RespBody.obj (some "password_required") msg detail) disposition)
        url t).1.passwordError = none ∧
    (doRedact st (some p) (AxiosResult.resp 423
        (RespBody.obj (some "password_required") msg detail) disposition)
        url t).1.step = Step.password ∧
    (doRedact st (some p) (AxiosResult.resp 423
        (RespBody.obj (some "password_required") msg detail) disposition)
        url t).1.error = none ∧
    (doRedact st (some p) (AxiosResult.resp 423
        (RespBody.obj (some "password_required") msg detail) disposition)
        url t).1.passwordError = msg := by
  obtain ⟨s1, s2, s3, s4, s5, s6, s7, s8, s9⟩ := st
  change s2 = some f at hf
  subst hf
  refine ⟨?_, ?_, ?_, ?_, ?_, ?_⟩ <;> simp [doRedact, pwTruthy, hp]

/-- C2 witness: a 423 password_required response on a selected file, first
with no password (passwordError stays null), then with the wrong password
"guess" (passwordError shows the server's "Invalid password" message). -/
theorem claim_C2_witness :
    (doRedact { initState with selectedFile := some "doc.pdf", step := Step.configure }
        none (AxiosResult.resp 423
          (RespBody.obj (some "password_required") (some "Invalid password") none) none)
        "u" 1).1.step = Step.password ∧
    (doRedact { initState with selectedFile := some "doc.pdf", step := Step.configure }
        none (AxiosResult.resp 423
          (RespBody.obj (some "password_required") (some "Invalid password") none) none)
        "u" 1).1.error = none ∧
    (doRedact { initState with selectedFile := some "doc.pdf", step := Step.configure }
        none (AxiosResult.resp 423
          (RespBody.obj (some "password_required") (some "Invalid password") none) none)
        "u" 1).1.passwordError = none ∧
    (doRedact { initState with selectedFile := some "doc.pdf", step := Step.configure }
        (some "guess") (AxiosResult.resp 423
          (RespBody.obj (some "password_required") (some "Invalid password") none) none)
        "u" 1).1.step = Step.password ∧
    (doRedact { initState with selectedFile := some "doc.pdf", step := Step.configure }
        (some "guess") (AxiosResult.resp 423
          (RespBody.obj (some "password_required") (some "Invalid password") none) none)
        "u" 1).1.error = none ∧
    (doRedact { initState with selectedFile := some "doc.pdf", step := Step.configure }
        (some "guess") (AxiosResult.resp 423
          (RespBody.obj (some "password_required") (some "Invalid password") none) none)
        "u" 1).1.passwordError = some "Invalid password" :=
  claim_C2 { initState with selectedFile := some "doc.pdf", step := Step.configure }
    "doc.pdf" (some "Invalid password") none none "u" 1 "guess" rfl (by decide)

/-- Whether a response is the password-required signal the 423 branch
accepts: status 423 and a parsed body whose `error` field is
`password_required`. -/
def isPasswordRequiredSignal (status : Nat) : RespBody → Bool
  | RespBody.obj err _ _ => status == 423 && err == some "password_required"
  | RespBody.invalid => false

/-- C4: every failure other than the password-required signal — a rejected
request (network failure or 5xx) or any 4xx response that is not the 423
password_required signal — returns the flow to the configure step carrying
an error message, leaves the stored output URL unchanged (no partial file
body), and lands in a step distinct from the password step, so the caller
can distinguish needs-a-password and wrong-password (claim C2's states)
from could-not-process. -/
theorem claim_C4 (st : AppState) (f : String) (password : Option String)
    (url : String) (t : Nat) (status : Nat) (body : RespBody)
    (disposition : Option String) (hf : st.selectedFile = some f)
    (h4 : 400 ≤ status)
    (hpw : isPasswordRequiredSignal status body = false) :
    (doRedact st password AxiosResult.netError url t).1.step = Step.configure ∧
    (doRedact st password AxiosResult.netError url t).1.error = some catchMsg ∧
    (doRedact st password AxiosResult.netError url t).1.redactedPdfUrl
      = st.redactedPdfUrl ∧
    (doRedact st password (AxiosResult.resp status body disposition) url t).1.step
      = Step.configure ∧
    ((doRedact st password (AxiosResult.resp status body disposition) url t).1.error).isSome
      = true ∧
    (doRedact st password (AxiosResult.resp status body disposition) url t).1.redactedPdfUrl
      = st.redactedPdfUrl ∧
    (doRedact st password (AxiosResult.resp status body disposition) url t).1.step
      ≠ Step.password := by
  obtain ⟨s1, s2, s3, s4, s5, s6, s7, s8, s9⟩ := st
  change s2 = some f at hf
  subst hf
  refine ⟨rfl, rfl, rfl, ?_, ?_, ?_, ?_⟩ <;>
    · simp only [doRedact]
      by_cases h5 : 500 ≤ status
      · simp [h5]
      · rw [if_neg h5]
        by_cases h423 : status = 423
        · subst h423
          cases body with
          | invalid => simp
          | obj err m dtl =>
            have herr : ¬ err = some "password_required" := by
              intro hcontra
              subst hcontra
              simp [isPasswordRequiredSignal] at hpw
            simp only [if_pos rfl, if_neg herr]
            cases dtl <;> simp [errorBranch]
        · rw [if_neg h423, if_pos h4]
          cases body with
          | invalid => simp [errorBranch]
          | obj err m dtl => cases dtl <;> simp [errorBranch]

/-- C4 witness: a 404 response with an unparsable body on a selected file. -/
theorem claim_C4_witness :
    (doRedact { initState with selectedFile := some "doc.pdf", step := Step.configure }
        none AxiosResult.netError "u" 1).1.step = Step.configure ∧
    (doRedact { initState with selectedFile := some "doc.pdf", step := Step.configure }
        none AxiosResult.netError "u" 1).1.error = some catchMsg ∧
    (doRedact { initState with selectedFile := some "doc.pdf", step := Step.configure }
        none AxiosResult.netError "u" 1).1.redactedPdfUrl = none ∧
    (doRedact { initState with selectedFile := some "doc.pdf", step := Step.configure }
        none (AxiosResult.resp 404 RespBody.invalid none) "u" 1).1.step = Step.configure ∧
    ((doRedact { initState with selectedFile := some "doc.pdf", step := Step.configure }
        none (AxiosResult.resp 404 RespBody.invalid none) "u" 1).1.error).isSome = true ∧
    (doRedact { initState with selectedFile := some "doc.pdf", step := Step.configure }
        none (AxiosResult.resp 404 RespBody.invalid none) "u" 1).1.redactedPdfUrl = none ∧
    (doRedact { initState with selectedFile := some "doc.pdf", step := Step.configure }
        none (AxiosResult.resp 404 RespBody.invalid none) "u" 1).1.step ≠ Step.password :=
  claim_C4 { initState with selectedFile := some "doc.pdf", step := Step.configure }
    "doc.pdf" none "u" 1 404 RespBody.invalid none rfl (by decide) (by decide)

/-- C5 (amended): on a successful response the client stores the sanitized
document's blob URL and a suggested output filename given by
`successFilename`: the name captured from the Content-Disposition header when
the header is present and the capture succeeds; the previous suggested
filename when the header is present but nothing can be captured; and the
original file's name with a recognized extension stripped plus
`_redacted.pdf` when the header is absent. -/
theorem claim_C5 (st : AppState) (f : String) (password : Option String)
    (status : Nat) (body : RespBody) (disposition : Option String)
    (url : String) (t : Nat) (hf : st.selectedFile = some f)
    (hs : status < 400) :
    (doRedact st password (AxiosResult.resp status body disposition) url t).1.step
      = Step.result ∧
    (doRedact st password (AxiosResult.resp status body disposition) url t).1.redactedPdfUrl
      = some url ∧
    (doRedact st password (AxiosResult.resp status body disposition) url t).1.downloadFilename
      = successFilename st.downloadFilename f disposition ∧
    successFilename st.downloadFilename f none
      = stripRecognizedExt f ++ "_redacted.pdf" := by
  obtain ⟨s1, s2, s3, s4, s5, s6, s7, s8, s9⟩ := st
  change s2 = some f at hf
  subst hf
  have h5 : ¬ 500 ≤ status := by omega
  have h423 : ¬ status = 423 := by omega
  have h4 : ¬ 400 ≤ status := by omega
  refine ⟨?_, ?_, ?_, rfl⟩ <;>
    simp [doRedact, h5, h423, h4]

/-- C5 witness: a 200 response whose Content-Disposition header carries
filename="out.pdf", on the selected file photo.JPG. -/
theorem claim_C5_witness :
    (doRedact { initState with selectedFile := some "photo.JPG", step := Step.configure }
        none (AxiosResult.resp 200 (RespBody.obj none none none)
          (some "attachment; filename=\"out.pdf\"")) "blob:u1" 2).1.step
      = Step.result ∧
    (doRedact { initState with selectedFile := some "photo.JPG", step := Step.configure }
        none (AxiosResult.resp 200 (RespBody.obj none none none)
          (some "attachment; filename=\"out.pdf\"")) "blob:u1" 2).1.redactedPdfUrl
      = some "blob:u1" ∧
    (doRedact { initState with selectedFile := some "photo.JPG", step := Step.configure }
        none (AxiosResult.resp 200 (RespBody.obj none none none)
          (some "attachment; filename=\"out.pdf\"")) "blob:u1" 2).1.downloadFilename
      = successFilename "redacted_document.pdf" "photo.JPG"
          (some "attachment; filename=\"out.pdf\"") ∧
    successFilename "redacted_document.pdf" "photo.JPG" none
      = stripRecognizedExt "photo.JPG" ++ "_redacted.pdf" :=
  claim_C5 { initState with selectedFile := some "photo.JPG", step := Step.configure }
    "photo.JPG" none 200 (RespBody.obj none none none)
    (some "attachment; filename=\"out.pdf\"") "blob:u1" 2 rfl (by decide)

/-- C5 counterexample: the header value "attachment" is present but carries
no parsable filename; the claim then demands the stripped-name fallback
"doc_redacted.pdf", yet the code keeps the previous suggested filename
"redacted_document.pdf". -/
theorem claim_C5_counterexample :
    jsFilenameCapture "attachment" = none ∧
    (doRedact { initState with selectedFile := some "doc.pdf", step := Step.configure }
        none (AxiosResult.resp 200 (RespBody.obj none none none) (some "attachment"))
        "blob:u1" 3).1.downloadFilename = "redacted_document.pdf" ∧
    ("redacted_document.pdf" : String) ≠ "doc_redacted.pdf" := by
  refine ⟨rfl, rfl, by decide⟩

/-- C1: whenever the engine returns an output document, re-running detection
on that output yields zero PII matches, and no previously matched PII text
occurs anywhere in the output's text layer — the section 4.6 post-condition
check fails the request closed instead of ever returning output violating
this. -/
theorem claim_C1 (lvl : SensitivityLevel) (input output : String)
    (h : engine lvl input = Except.ok output) :
    detect lvl output.toList = [] ∧
    (detect lvl input.toList).all
      (fun m => !(containsSeq m.text output.toList)) = true := by
  have h' : (if (detect lvl (applyMask input.toList (detect lvl input.toList))).isEmpty &&
        (detect lvl input.toList).all
          (fun m => !(containsSeq m.text
            (applyMask input.toList (detect lvl input.toList)))) then
        Except.ok (String.mk (applyMask input.toList (detect lvl input.toList)))
      else
        Except.error EngineError.RedactionIntegrityFailure) = Except.ok output := h
  by_cases hc : ((detect lvl (applyMask input.toList (detect lvl input.toList))).isEmpty &&
      (detect lvl input.toList).all
        (fun m => !(containsSeq m.text
          (applyMask input.toList (detect lvl input.toList))))) = true
  · rw [if_pos hc] at h'
    have hout : String.mk (applyMask input.toList (detect lvl input.toList)) = output :=
      by injection h'
    obtain ⟨h1, h2⟩ := (Bool.and_eq_true _ _).mp hc
    subst hout
    exact ⟨List.isEmpty_iff.mp h1, h2⟩
  · rw [if_neg hc] at h'
    exact absurd h' (by simp)

/-- C1 witness: the Scenario A fixture "PAN ABCDE1234F" at level low; the
engine returns "PAN ██████234F" (partial mask keeping the last 4
characters), on which detection finds nothing and the matched text no longer
occurs. -/
theorem claim_C1_witness :
    detect SensitivityLevel.low (String.toList "PAN ██████234F") = [] ∧
    (detect SensitivityLevel.low (String.toList "PAN ABCDE1234F")).all
      (fun m => !(containsSeq m.text (String.toList "PAN ██████234F"))) = true :=
  claim_C1 SensitivityLevel.low "PAN ABCDE1234F" "PAN ██████234F" (by rfl)

/-- C3 witness: Phone is active at medium, and Email is active at high. -/
theorem claim_C3_witness :
    PiiType.Phone ∈ activeTypes "medium" ∧ PiiType.Email ∈ activeTypes "high" :=
  ⟨(claim_C3 PiiType.Phone).2.1.mpr (Or.inr (Or.inr (Or.inr rfl))),
   (claim_C3 PiiType.Email).2.2⟩

/-- C6 witness: a request with password "pw" carries the password field, and
a request with no password still carries the file field. -/
theorem claim_C6_witness :
    ("password", "pw") ∈ buildRedactForm "doc.pdf" "low" (some "pw") ∧
    ("file", "doc.pdf") ∈ buildRedactForm "doc.pdf" "low" none :=
  ⟨((claim_C6 "doc.pdf" "low" (some "pw")).2.2.2 "pw").mpr ⟨rfl, by decide⟩,
   (claim_C6 "doc.pdf" "low" none).1⟩
